import Mathlib

/-!
Verification of the simple-cart-upsell application against its specification.

This file gives a shallow embedding, in Lean 4, of the core business logic of
the repository:

* the cart matcher and offer formatter of the storefront upsells loader
  (`src/unnamed/part_001`, the variant of `api.storefront.upsells.tsx` that
  implements COLLECTION triggers);
* the analytics tracking action (`src/app/routes/api.storefront.track.tsx`);
* the analytics rollup (`src/app/routes/app.analytics.tsx`, loader);
* the billing plan gate (`src/app/billing.ts` and the plan checks in
  `src/app/routes/app.rules.new.tsx`);
* the free-shipping settings loader (`src/unnamed/part_000`).

JavaScript truthiness on strings (`null`, `undefined` and `""` are falsy) is
modelled by `strTruthy`; truthiness on numbers (`0` and `NaN` falsy) by
`qTruthy`.  Database rows are plain structures, tables are lists, and the
Prisma queries used by the code (`findUnique`, `findFirst`, `findMany`) become
`List.find?` / predicates over those lists.  Machine floating point does not
occur in the claims' arithmetic at a precision-relevant scale; prices, rates
and revenue are modelled as exact rationals (`ℚ`), matching the DECIMAL(10,2)
storage of `productPrice`.
-/

namespace CartUpsell

/-- Trigger type of a rule, enum `TriggerType` of the Prisma schema. -/
inductive TriggerType
  | PRODUCT
  | COLLECTION
deriving DecidableEq, Repr

/-- Analytics event type, enum `EventType` of the Prisma schema. -/
inductive EventType
  | IMPRESSION
  | CONVERSION
deriving DecidableEq, Repr

/-- Subscription tier, enum `Plan` of the Prisma schema
(`CREATE TYPE "Plan" AS ENUM ('FREE', 'STARTER', 'PRO')`). -/
inductive Plan
  | FREE
  | STARTER
  | PRO
deriving DecidableEq, Repr

/-- The cached upsell product snapshot stored in `Rule.upsellProductData`
(JSONB).  Every field is optional: the stored JSON object may lack any of
them.  Fields are kept as strings exactly as the code reads them. -/
structure ProductSnapshot where
  variantId : Option String
  title : Option String
  image : Option String
  price : Option String
  compareAtPrice : Option String
deriving DecidableEq, Repr

/-- A row of the `Rule` table, with the fields the storefront loader reads.
`triggerProductId`, `triggerCollectionId`, `upsellVariantId` and
`upsellProductData` are nullable in the schema; `upsellProductId` is NOT NULL. -/
structure Rule where
  id : String
  name : String
  isEnabled : Bool
  triggerType : TriggerType
  triggerProductId : Option String
  triggerCollectionId : Option String
  upsellProductId : String
  upsellVariantId : Option String
  upsellProductData : Option ProductSnapshot
  priority : Int
deriving DecidableEq, Repr

/-- JavaScript truthiness of a nullable string: `null`/`undefined`/`""` are
falsy, every other string is truthy. -/
def strTruthy : Option String → Bool
  | none => false
  | some s => !s.isEmpty

/-- JavaScript `a || b` for a nullable string `a` and a string default `b`. -/
def jsOrString (v : Option String) (fallback : String) : String :=
  match v with
  | some s => if s.isEmpty then fallback else s
  | none => fallback

/-- JavaScript `a || null` for a nullable string `a`: collapses `""` to null. -/
def jsOrNull (v : Option String) : Option String :=
  match v with
  | some s => if s.isEmpty then none else some s
  | none => none

/-- The longest run of decimal digits at the head of the character list
(the greedy `\d+` starting at this position). -/
def digitSpan : List Char → List Char
  | [] => []
  | c :: cs => if c.isDigit then c :: digitSpan cs else []

/-- Whether `pat` occurs literally at the head of `cs`. -/
def matchesAt : List Char → List Char → Bool
  | [], _ => true
  | _ :: _, [] => false
  | p :: ps, c :: cs => p == c && matchesAt ps cs

/-- The literal part of the regex `/gid:\/\/shopify\/Product\/(\d+)/`. -/
def gidPattern : List Char := "gid://shopify/Product/".toList

/-- Scan of `gid.match(/gid:\/\/shopify\/Product\/(\d+)/)`: at each position,
try to match the literal followed by at least one digit; on success return
the captured (maximal) digit run, otherwise advance one character. -/
def findGidDigits : List Char → Option (List Char)
  | [] => none
  | c :: cs =>
    if matchesAt gidPattern (c :: cs) then
      let ds := digitSpan ((c :: cs).drop gidPattern.length)
      if ds.isEmpty then findGidDigits cs else some ds
    else findGidDigits cs

/-- `extractProductId` of the upsells loader: `null`/empty input gives `null`;
otherwise the first regex match's digit capture, or `null` when the regex
does not match. -/
def extractProductId (gid : Option String) : Option String :=
  match gid with
  | none => none
  | some s => if s.isEmpty then none else (findGidDigits s.toList).map fun ds => String.mk ds

/-- The PRODUCT-trigger test of the matcher loop:
`triggerNumericId && cartProductIds.includes(triggerNumericId)`
(a successful extraction is always a nonempty string, hence truthy). -/
def productTriggerHit (rule : Rule) (cartProductIds : List String) : Bool :=
  match extractProductId rule.triggerProductId with
  | some pid => cartProductIds.contains pid
  | none => false

/-- The exclusion test of the matcher loop:
`upsellNumericId && cartProductIds.includes(upsellNumericId)`. -/
def upsellInCart (rule : Rule) (cartProductIds : List String) : Bool :=
  match extractProductId (some rule.upsellProductId) with
  | some pid => cartProductIds.contains pid
  | none => false

/-- The COLLECTION-trigger inner loop, instrumented: walks the cart product
ids in order, calling the collection-membership `oracle`
(`getProductCollections`) on each, and stops at the first product whose
collections contain `collectionId` (the `break` in the source).  Returns the
match result together with the number of oracle lookups performed. -/
def collectionProbe (oracle : String → List String) (collectionId : String) :
    List String → Bool × Nat
  | [] => (false, 0)
  | pid :: rest =>
    if (oracle pid).contains collectionId then (true, 1)
    else
      let r := collectionProbe oracle collectionId rest
      (r.1, r.2 + 1)

/-- The COLLECTION-trigger test:
`productCollections.includes(rule.triggerCollectionId || '')` over the cart,
short-circuiting on first match. -/
def collectionTriggerHit (oracle : String → List String) (rule : Rule)
    (cartProductIds : List String) : Bool :=
  (collectionProbe oracle (rule.triggerCollectionId.getD "") cartProductIds).1

/-- The `matches` flag computed by the matcher loop for one rule. -/
def ruleMatches (oracle : String → List String) (rule : Rule)
    (cartProductIds : List String) : Bool :=
  match rule.triggerType with
  | .PRODUCT => productTriggerHit rule cartProductIds
  | .COLLECTION => collectionTriggerHit oracle rule cartProductIds

/-- The matcher loop of the storefront upsells loader (`src/unnamed/part_001`,
lines 117-149): for each rule in order, compute `matches`; a matched rule is
pushed unless its upsell product is already in the cart. -/
def matchRules (oracle : String → List String) :
    List Rule → List String → List Rule
  | [], _ => []
  | rule :: rest, cartProductIds =>
    if ruleMatches oracle rule cartProductIds && !(upsellInCart rule cartProductIds) then
      rule :: matchRules oracle rest cartProductIds
    else
      matchRules oracle rest cartProductIds

/-- The product part of an offer in the loader's JSON response. -/
structure OfferProduct where
  id : String
  variantId : String
  title : String
  image : Option String
  price : String
  compareAtPrice : Option String
  available : Bool
deriving DecidableEq, Repr

/-- One element of the `offers` array in the loader's JSON response. -/
structure Offer where
  ruleId : String
  product : OfferProduct
deriving DecidableEq, Repr

/-- `const maxOffers = 3` of the upsells loader. -/
def maxOffers : Nat := 3

/-- The per-rule offer construction of the upsells loader (lines 156-171):
every field comes from the rule's cached snapshot `upsellProductData`, with
JavaScript `||` fallbacks, and `available` is hard-coded `true`. -/
def offerOfRule (rule : Rule) : Offer :=
  let productData := rule.upsellProductData
  { ruleId := rule.id
    product :=
      { id := rule.upsellProductId
        variantId := jsOrString (productData.bind fun d => d.variantId) rule.upsellProductId
        title := jsOrString (productData.bind fun d => d.title) "Product"
        image := jsOrNull (productData.bind fun d => d.image)
        price := jsOrString (productData.bind fun d => d.price) "0.00"
        compareAtPrice := jsOrNull (productData.bind fun d => d.compareAtPrice)
        available := true } }

/-- The offer formatting stage of the upsells loader (lines 151-171):
`matchedRules.slice(0, maxOffers)` followed by the per-rule map. -/
def formatOffers (matchedRules : List Rule) : List Offer :=
  (matchedRules.take maxOffers).map offerOfRule

/-- Following the spec's words (§4.2 / claim C5): the offer produced from a
retained rule's cached upsell snapshot.  `variantId` falls back to the upsell
product id when the snapshot lacks one, `title` falls back to the generic
placeholder `"Product"` when missing, `price` defaults to `"0.00"` when
missing, `image` and `compareAtPrice` are nullable, and `available` is always
asserted `true`.  A field that is absent, or present but empty, counts as
lacking/missing. -/
def specOffer (rule : Rule) : Offer :=
  { ruleId := rule.id
    product :=
      { id := rule.upsellProductId
        variantId :=
          match rule.upsellProductData with
          | some snap =>
            match snap.variantId with
            | some v => if v.isEmpty then rule.upsellProductId else v
            | none => rule.upsellProductId
          | none => rule.upsellProductId
        title :=
          match rule.upsellProductData with
          | some snap =>
            match snap.title with
            | some t => if t.isEmpty then "Product" else t
            | none => "Product"
          | none => "Product"
        image :=
          match rule.upsellProductData with
          | some snap =>
            match snap.image with
            | some i => if i.isEmpty then none else some i
            | none => none
          | none => none
        price :=
          match rule.upsellProductData with
          | some snap =>
            match snap.price with
            | some p => if p.isEmpty then "0.00" else p
            | none => "0.00"
          | none => "0.00"
        compareAtPrice :=
          match rule.upsellProductData with
          | some snap =>
            match snap.compareAtPrice with
            | some c => if c.isEmpty then none else some c
            | none => none
          | none => none
        available := true } }

/-- A row of the `AnalyticsEvent` table.  `productPrice` is the nullable
DECIMAL(10,2) column, modelled as an exact rational; `createdAt` is the row
timestamp. -/
structure EventRow where
  shopId : String
  ruleId : String
  eventType : EventType
  cartToken : Option String
  sessionId : Option String
  productPrice : Option ℚ
  createdAt : Nat
deriving DecidableEq, Repr

/-- The summary block computed by the analytics dashboard loader. -/
structure Summary where
  totalImpressions : Nat
  totalConversions : Nat
  conversionRate : ℚ
  totalRevenue : ℚ
deriving DecidableEq, Repr

/-- The summary-metric computation of the analytics loader
(`src/app/routes/app.analytics.tsx`, lines 73-84): impression and conversion
counts by filtering, guarded conversion rate, and revenue as a left fold over
the conversion events with null prices read as 0. -/
def computeSummary (events : List EventRow) : Summary :=
  let impressionEvents := events.filter fun e => e.eventType == EventType.IMPRESSION
  let conversionEvents := events.filter fun e => e.eventType == EventType.CONVERSION
  let totalImpressions := impressionEvents.length
  let totalConversions := conversionEvents.length
  let conversionRate : ℚ :=
    if 0 < totalImpressions then
      ((totalConversions : ℚ) / (totalImpressions : ℚ)) * 100
    else 0
  let totalRevenue : ℚ :=
    conversionEvents.foldl (fun sum e => sum + e.productPrice.getD 0) 0
  { totalImpressions := totalImpressions
    totalConversions := totalConversions
    conversionRate := conversionRate
    totalRevenue := totalRevenue }

/-- JavaScript truthiness of a nullable numeric value: `null`, `undefined`,
`0` (and `NaN`, which the rational model cannot produce) are falsy. -/
def qTruthy : Option ℚ → Bool
  | none => false
  | some q => !(q == 0)

/-- A row of the `Shop` table, with the fields the tracking action reads. -/
structure ShopRow where
  id : String
  shopifyDomain : String
deriving DecidableEq, Repr

/-- A row of the `Rule` table as the tracking action reads it (only the key
fields used by its `findUnique` query). -/
structure RuleRow where
  id : String
  shopId : String
deriving DecidableEq, Repr

/-- The persistent-store state visible to the tracking action. -/
structure TrackDb where
  shops : List ShopRow
  rules : List RuleRow
  events : List EventRow
deriving DecidableEq, Repr

/-- The JSON body of a `POST /track` request.  Field values may be absent;
`productPrice` is the numeric price the storefront script sends. -/
structure TrackBody where
  eventType : Option String
  ruleId : Option String
  shopDomain : Option String
  cartToken : Option String
  sessionId : Option String
  productPrice : Option ℚ
deriving DecidableEq, Repr

/-- The response of the tracking action: a 400 validation error, a 404
not-found error, or a 200 `{success: true, tracked, reason?}` body. -/
inductive TrackResponse
  | badRequest (error : String)
  | notFound (error : String)
  | ok (tracked : Bool) (reason : Option String)
deriving DecidableEq, Repr

/-- The tracking action (`src/app/routes/api.storefront.track.tsx`, `action`):
validates required fields and the event type, resolves the shop by domain and
the rule by `(id, shopId)`, de-duplicates impressions per `(ruleId,
sessionId)`, and otherwise appends one `AnalyticsEvent` row.  `now` is the
`createdAt` timestamp of a row created by this call. -/
def recordEvent (db : TrackDb) (body : TrackBody) (now : Nat) :
    TrackResponse × TrackDb :=
  if !(strTruthy body.eventType) || !(strTruthy body.ruleId) || !(strTruthy body.shopDomain) then
    (.badRequest "Missing required fields", db)
  else
    let et := body.eventType.getD ""
    if !(et == "IMPRESSION" || et == "CONVERSION") then
      (.badRequest "Invalid event type", db)
    else
      match db.shops.find? fun s => s.shopifyDomain == body.shopDomain.getD "" with
      | none => (.notFound "Shop not found", db)
      | some shopRecord =>
        match db.rules.find? fun r => r.id == body.ruleId.getD "" && r.shopId == shopRecord.id with
        | none => (.notFound "Rule not found", db)
        | some _ =>
          let isDuplicate := et == "IMPRESSION" && strTruthy body.sessionId &&
            db.events.any fun e =>
              e.ruleId == body.ruleId.getD "" && e.eventType == EventType.IMPRESSION &&
                e.sessionId == body.sessionId
          if isDuplicate then
            (.ok false (some "duplicate"), db)
          else
            let newRow : EventRow :=
              { shopId := shopRecord.id
                ruleId := body.ruleId.getD ""
                eventType := if et == "IMPRESSION" then .IMPRESSION else .CONVERSION
                cartToken := jsOrNull body.cartToken
                sessionId := jsOrNull body.sessionId
                productPrice :=
                  if et == "CONVERSION" && qTruthy body.productPrice then body.productPrice
                  else none
                createdAt := now }
            (.ok true none, { db with events := db.events ++ [newRow] })

/-- One entry of the `BILLING_PLANS` table of `src/app/billing.ts`. -/
structure PlanConfig where
  name : String
  price : ℚ
  maxRules : Nat
deriving DecidableEq, Repr

/-- `BILLING_PLANS` of `src/app/billing.ts` (lines 7-31), indexed by the
schema's `Plan` enum.  The object defines only the `FREE` and `PRO` keys;
indexing it with the schema's third enum value `STARTER` yields `undefined`
in JavaScript, modelled as `none`. -/
def BILLING_PLANS : Plan → Option PlanConfig
  | Plan.FREE => some { name := "Free", price := 0, maxRules := 1 }
  | Plan.STARTER => none
  | Plan.PRO => some { name := "Pro", price := 999 / 100, maxRules := 999 }

/-- The `{allowed, reason?}` result of `canPerformAction`. -/
structure GateDecision where
  allowed : Bool
  reason : Option String
deriving DecidableEq, Repr

/-- First literal segment of the template string in `canPerformAction`. -/
def reasonHead : String := "You\x27ve reached the maximum of "

/-- Middle literal segment of the template string in `canPerformAction`. -/
def reasonMid : String := " rule(s) on the "

/-- Last literal segment of the template string in `canPerformAction`. -/
def reasonTail : String := " plan. Upgrade to Pro for unlimited rules."

/-- The interpolated reason string of `canPerformAction`, which embeds the
plan's `maxRules` limit and its `name`. -/
def limitReason (plan : PlanConfig) : String :=
  reasonHead ++ toString plan.maxRules ++ reasonMid ++ plan.name ++ reasonTail

/-- `canPerformAction` of `src/app/billing.ts` (lines 63-80).  The result is
`none` exactly when the JavaScript code would throw: for `action =
"createRule"` with a supplied count, `plan.maxRules` is read from
`BILLING_PLANS[currentPlan]`, which is `undefined` for the schema plan value
`STARTER` (a `TypeError`, by short-circuiting reached only on that path). -/
def canPerformAction (currentPlan : Plan) (action : String)
    (currentCount : Option Nat) : Option GateDecision :=
  if action == "createRule" then
    match currentCount with
    | none => some { allowed := true, reason := none }
    | some count =>
      match BILLING_PLANS currentPlan with
      | none => none
      | some plan =>
        if plan.maxRules ≤ count then
          some { allowed := false, reason := some (limitReason plan) }
        else
          some { allowed := true, reason := none }
  else
    some { allowed := true, reason := none }

/-- A line item of a Shopify app subscription as read by
`hasActivePaidSubscription`: `amount` models
`item.plan?.pricingDetails?.price?.amount` after `parseFloat`, with `none`
for a missing or empty amount. -/
structure SubscriptionLineItem where
  amount : Option ℚ
deriving DecidableEq, Repr

/-- A Shopify app subscription object as read by
`hasActivePaidSubscription`. -/
structure Subscription where
  status : String
  lineItems : List SubscriptionLineItem
deriving DecidableEq, Repr

/-- `hasActivePaidSubscription` of `src/app/billing.ts` (lines 38-48):
a null subscription is unpaid; otherwise the status must be `"ACTIVE"` and
some line item must carry a positive recurring price. -/
def hasActivePaidSubscription : Option Subscription → Bool
  | none => false
  | some subscription =>
    subscription.status == "ACTIVE" &&
      subscription.lineItems.any fun item =>
        match item.amount with
        | some a => decide (0 < a)
        | none => false

/-- `getCurrentPlan` of `src/app/billing.ts` (lines 53-58). -/
def getCurrentPlan (subscription : Option Subscription) : Plan :=
  if hasActivePaidSubscription subscription then Plan.PRO else Plan.FREE

/-- The shop state read by the plan checks of
`src/app/routes/app.rules.new.tsx`: the stored `currentPlan` column and the
shop's enabled rules (`rules` with `where: {isEnabled: true}`), by id. -/
structure ShopRec where
  currentPlan : Plan
  enabledRules : List String
deriving DecidableEq, Repr

/-- The loader's plan-limit check of `app.rules.new.tsx` (line 28):
`shopRecord.currentPlan !== "FREE" || shopRecord.rules.length < 1`. -/
def canCreateRule (shopRecord : ShopRec) : Bool :=
  !(shopRecord.currentPlan == Plan.FREE) || decide (shopRecord.enabledRules.length < 1)

/-- The action's plan-limit check of `app.rules.new.tsx` (lines 92-99): the
`errors.plan` message is set iff the stored plan is FREE, at least one enabled
rule exists, and the new rule is being created enabled. -/
def createRulePlanBlocked (shopRecord : ShopRec) (isEnabled : Bool) : Bool :=
  shopRecord.currentPlan == Plan.FREE &&
    decide (1 ≤ shopRecord.enabledRules.length) && isEnabled

/-- Body of a `GET /upsells` response: an offers array or an error object. -/
inductive UpsellsBody
  | offers (offers : List Offer)
  | error (message : String)
deriving DecidableEq, Repr

/-- A `GET /upsells` HTTP response (status code and JSON body). -/
structure UpsellsResponse where
  status : Nat
  body : UpsellsBody
deriving DecidableEq, Repr

/-- JavaScript `String.prototype.split(",")`: cuts the character list at
every comma; adjacent commas and a leading/trailing comma produce empty
pieces, and the empty string yields one empty piece. -/
def splitComma : List Char → List (List Char)
  | [] => [[]]
  | c :: cs =>
    if c == ',' then [] :: splitComma cs
    else
      match splitComma cs with
      | [] => [[c]]
      | piece :: pieces => (c :: piece) :: pieces

/-- The whitespace characters relevant to `String.prototype.trim()` here. -/
def isSpaceChar (c : Char) : Bool :=
  c == ' ' || c == '\t' || c == '\n' || c == '\r'

/-- JavaScript `String.prototype.trim()`: strip leading and trailing
whitespace. -/
def trimChars (s : List Char) : List Char :=
  ((s.dropWhile isSpaceChar).reverse.dropWhile isSpaceChar).reverse

/-- Cart-id parsing of the upsells loader (line 40):
`productsParam.split(",").map(id => id.trim()).filter(Boolean)`. -/
def parseCartProductIds (productsParam : String) : List String :=
  ((splitComma productsParam.toList).map fun piece => String.mk (trimChars piece)).filter
    fun id => !id.isEmpty

/-- The storefront upsells loader (`src/unnamed/part_001`), with its
collaborators abstracted: `dbFetch` is the outcome of the `try` block's
database work — `.error ()` when any awaited call throws (caught by the
`catch`), `.ok none` when the shop record is not found, and `.ok (some
rules)` the shop's enabled rules ordered by priority; `oracle` is the
collection-membership lookup, which never throws (its own `catch` returns
`[]`). -/
def upsellsLoader (shop productsParam : Option String)
    (dbFetch : Except Unit (Option (List Rule)))
    (oracle : String → List String) : UpsellsResponse :=
  if !(strTruthy shop) then
    { status := 400, body := .error "Missing shop parameter" }
  else if !(strTruthy productsParam) then
    { status := 200, body := .offers [] }
  else
    let cartProductIds := parseCartProductIds (productsParam.getD "")
    if cartProductIds.length = 0 then
      { status := 200, body := .offers [] }
    else
      match dbFetch with
      | .error _ => { status := 500, body := .offers [] }
      | .ok none => { status := 200, body := .offers [] }
      | .ok (some rules) =>
        { status := 200
          body := .offers (formatOffers (matchRules oracle rules cartProductIds)) }

/-- Body of a `GET /shipping` response: the settings object (the 500 branch
omits the `currency` field, hence the option) or an error object. -/
inductive ShippingBody
  | settings (enabled : Bool) (threshold : ℚ) (currency : Option String)
  | error (message : String)
deriving DecidableEq, Repr

/-- A `GET /shipping` HTTP response (status code and JSON body). -/
structure ShippingResponse where
  status : Nat
  body : ShippingBody
deriving DecidableEq, Repr

/-- The free-shipping columns of the `Shop` row selected by the shipping
loader. -/
structure ShippingSettingsRow where
  freeShippingEnabled : Bool
  freeShippingThreshold : ℚ
  currencyCode : String
deriving DecidableEq, Repr

/-- The free-shipping settings loader (`src/unnamed/part_000`): 400 on a
missing shop parameter; otherwise disabled defaults for an unknown shop
(HTTP 200), the stored settings for a known shop (HTTP 200), or disabled
defaults without a currency on an internal error (HTTP 500). -/
def shippingLoader (shop : Option String)
    (dbFetch : Except Unit (Option ShippingSettingsRow)) : ShippingResponse :=
  if !(strTruthy shop) then
    { status := 400, body := .error "Missing shop parameter" }
  else
    match dbFetch with
    | .error _ => { status := 500, body := .settings false 0 none }
    | .ok none => { status := 200, body := .settings false 0 (some "USD") }
    | .ok (some s) =>
      { status := 200
        body := .settings s.freeShippingEnabled s.freeShippingThreshold (some s.currencyCode) }

/-! ## Helper lemmas -/

/-- The matcher loop is exactly a filter by "trigger matches and upsell not
already in cart". -/
theorem matchRules_eq_filter (oracle : String → List String)
    (rules : List Rule) (cartProductIds : List String) :
    matchRules oracle rules cartProductIds =
      rules.filter fun r =>
        ruleMatches oracle r cartProductIds && !(upsellInCart r cartProductIds) := by
  induction rules with
  | nil => rfl
  | cons rule rest ih =>
    simp only [matchRules, List.filter_cons]
    by_cases h : (ruleMatches oracle rule cartProductIds
        && !(upsellInCart rule cartProductIds)) = true
    · simp [h, ih]
    · simp only [Bool.not_eq_true] at h
      simp [h, ih]

/-- The collection probe's boolean result is an existential over the cart. -/
theorem collectionProbe_fst (oracle : String → List String) (collectionId : String)
    (cartProductIds : List String) :
    (collectionProbe oracle collectionId cartProductIds).1 =
      cartProductIds.any fun pid => (oracle pid).contains collectionId := by
  induction cartProductIds with
  | nil => rfl
  | cons p ps ih =>
    by_cases h : collectionId ∈ oracle p
    · simp [collectionProbe, h]
    · simp [collectionProbe, h, ih]

/-- The collection probe performs lookups only up to and including the first
matching cart product. -/
theorem collectionProbe_snd (oracle : String → List String) (collectionId : String)
    (cartProductIds : List String) :
    (collectionProbe oracle collectionId cartProductIds).2 =
      min (cartProductIds.findIdx (fun pid => (oracle pid).contains collectionId) + 1)
        cartProductIds.length := by
  induction cartProductIds with
  | nil => rfl
  | cons p ps ih =>
    by_cases h : collectionId ∈ oracle p
    · simp [collectionProbe, List.findIdx_cons, h]
    · simp [collectionProbe, List.findIdx_cons, h, ih]
      omega

/-- Folding price addition from an accumulator is the accumulator plus the
sum of prices. -/
theorem foldl_price_sum (events : List EventRow) (acc : ℚ) :
    events.foldl (fun sum e => sum + e.productPrice.getD 0) acc =
      acc + ((events.map fun e => e.productPrice.getD 0).sum) := by
  induction events generalizing acc with
  | nil => simp
  | cons e rest ih => simp [List.foldl_cons, ih, add_assoc]

/-! ## Claims -/

/-- C1: for every oracle, rule sequence and cart, the matcher's output is a
subsequence of its input (match order, never re-sorted); its PRODUCT-type
part is exactly the PRODUCT-type rules whose normalized trigger product id is
in the cart and whose normalized upsell product id is not; and on an input of
only PRODUCT-type rules the output is exactly that filtered subsequence. -/
theorem matchRules_product_rules_spec (oracle : String → List String)
    (rules : List Rule) (cartProductIds : List String) :
    List.Sublist (matchRules oracle rules cartProductIds) rules ∧
    (matchRules oracle rules cartProductIds).filter
        (fun r => decide (r.triggerType = TriggerType.PRODUCT)) =
      rules.filter (fun r => decide (r.triggerType = TriggerType.PRODUCT)
        && productTriggerHit r cartProductIds
        && !(upsellInCart r cartProductIds)) ∧
    ((∀ r ∈ rules, r.triggerType = TriggerType.PRODUCT) →
      matchRules oracle rules cartProductIds =
        rules.filter fun r => productTriggerHit r cartProductIds
          && !(upsellInCart r cartProductIds)) := by
  refine ⟨?_, ?_, ?_⟩
  · rw [matchRules_eq_filter]
    exact List.filter_sublist rules
  · rw [matchRules_eq_filter, List.filter_filter]
    apply List.filter_congr
    intro r _
    cases htype : r.triggerType with
    | PRODUCT =>
      simp only [ruleMatches, htype, decide_True]
      cases productTriggerHit r cartProductIds <;>
        cases upsellInCart r cartProductIds <;> simp
    | COLLECTION =>
      simp [htype]
  · intro hall
    rw [matchRules_eq_filter]
    apply List.filter_congr
    intro r hr
    simp only [ruleMatches, hall r hr]

/-- Witness for C1 at a concrete input: three PRODUCT rules, a cart holding
the first trigger and the third trigger-plus-upsell; the matcher returns
exactly the filtered subsequence. -/
theorem matchRules_product_rules_spec_witness :
    matchRules (fun _ => [])
        [⟨"A", "Rule A", true, TriggerType.PRODUCT, some "gid://shopify/Product/111", none,
          "gid://shopify/Product/222", none, none, 0⟩,
         ⟨"B", "Rule B", true, TriggerType.PRODUCT, some "gid://shopify/Product/333", none,
          "gid://shopify/Product/444", none, none, 1⟩,
         ⟨"C", "Rule C", true, TriggerType.PRODUCT, some "gid://shopify/Product/555", none,
          "gid://shopify/Product/666", none, none, 2⟩]
        ["111", "555", "666"] =
      List.filter
        (fun r => productTriggerHit r ["111", "555", "666"]
          && !(upsellInCart r ["111", "555", "666"]))
        [⟨"A", "Rule A", true, TriggerType.PRODUCT, some "gid://shopify/Product/111", none,
          "gid://shopify/Product/222", none, none, 0⟩,
         ⟨"B", "Rule B", true, TriggerType.PRODUCT, some "gid://shopify/Product/333", none,
          "gid://shopify/Product/444", none, none, 1⟩,
         ⟨"C", "Rule C", true, TriggerType.PRODUCT, some "gid://shopify/Product/555", none,
          "gid://shopify/Product/666", none, none, 2⟩] :=
  (matchRules_product_rules_spec (fun _ => []) _ _).2.2 (by decide)

/-- C2: a COLLECTION rule is marked matched iff some cart product's
collections (per the external lookup oracle) contain the rule's trigger
collection id; the lookup loop short-circuits at the first matching cart
product (the probe's lookup count stops there); and COLLECTION rules flow
through the same match-then-exclude filter as PRODUCT rules — they are not
skipped. -/
theorem matchRules_collection_spec (oracle : String → List String) (rule : Rule)
    (cartProductIds : List String) (rules : List Rule)
    (h : rule.triggerType = TriggerType.COLLECTION) :
    (ruleMatches oracle rule cartProductIds = true ↔
      ∃ pid ∈ cartProductIds, (rule.triggerCollectionId.getD "") ∈ oracle pid) ∧
    (collectionProbe oracle (rule.triggerCollectionId.getD "") cartProductIds).2 =
      min (cartProductIds.findIdx
            (fun pid => (oracle pid).contains (rule.triggerCollectionId.getD "")) + 1)
          cartProductIds.length ∧
    matchRules oracle rules cartProductIds =
      rules.filter fun r =>
        ruleMatches oracle r cartProductIds && !(upsellInCart r cartProductIds) := by
  refine ⟨?_, collectionProbe_snd oracle _ cartProductIds,
    matchRules_eq_filter oracle rules cartProductIds⟩
  rw [ruleMatches, h]
  show collectionTriggerHit oracle rule cartProductIds = true ↔ _
  rw [collectionTriggerHit, collectionProbe_fst]
  simp [List.any_eq_true]

/-- Witness for C2 at a concrete input: a COLLECTION rule whose collection
contains the second cart product. -/
theorem matchRules_collection_spec_witness :
    (ruleMatches (fun pid => if pid == "111" then ["gid://shopify/Collection/9"] else [])
        ⟨"B", "Rule B", true, TriggerType.COLLECTION, none, some "gid://shopify/Collection/9",
          "gid://shopify/Product/777", none, none, 1⟩ ["000", "111"] = true ↔
      ∃ pid ∈ ["000", "111"],
        ((⟨"B", "Rule B", true, TriggerType.COLLECTION, none, some "gid://shopify/Collection/9",
          "gid://shopify/Product/777", none, none, 1⟩ : Rule).triggerCollectionId.getD "") ∈
          (if pid == "111" then ["gid://shopify/Collection/9"] else [])) ∧
    (collectionProbe (fun pid => if pid == "111" then ["gid://shopify/Collection/9"] else [])
        ((⟨"B", "Rule B", true, TriggerType.COLLECTION, none, some "gid://shopify/Collection/9",
          "gid://shopify/Product/777", none, none, 1⟩ : Rule).triggerCollectionId.getD "")
        ["000", "111"]).2 =
      min (["000", "111"].findIdx
            (fun pid => ((if pid == "111" then ["gid://shopify/Collection/9"] else [] :
                List String)).contains
              ((⟨"B", "Rule B", true, TriggerType.COLLECTION, none,
                some "gid://shopify/Collection/9",
                "gid://shopify/Product/777", none, none, 1⟩ : Rule).triggerCollectionId.getD ""))
            + 1)
          (["000", "111"] : List String).length ∧
    matchRules (fun pid => if pid == "111" then ["gid://shopify/Collection/9"] else [])
        [⟨"B", "Rule B", true, TriggerType.COLLECTION, none, some "gid://shopify/Collection/9",
          "gid://shopify/Product/777", none, none, 1⟩] ["000", "111"] =
      List.filter
        (fun r =>
          ruleMatches (fun pid => if pid == "111" then ["gid://shopify/Collection/9"] else [])
            r ["000", "111"] && !(upsellInCart r ["000", "111"]))
        [⟨"B", "Rule B", true, TriggerType.COLLECTION, none, some "gid://shopify/Collection/9",
          "gid://shopify/Product/777", none, none, 1⟩] :=
  matchRules_collection_spec _ _ _ _ rfl

/-- Evaluation of the tracking action on a well-formed IMPRESSION request
that resolves its shop and rule: the outcome is decided by the duplicate
lookup over the current event rows. -/
theorem recordEvent_impression_core (db : TrackDb) (domain rid sid : String)
    (cartToken : Option String) (price : Option ℚ) (t : Nat) (shop : ShopRow)
    (hdomain : strTruthy (some domain) = true) (hrid : strTruthy (some rid) = true)
    (hsid : strTruthy (some sid) = true)
    (hshop : db.shops.find? (fun s => s.shopifyDomain == domain) = some shop)
    (hrule : (db.rules.find? fun r => r.id == rid && r.shopId == shop.id).isSome = true) :
    recordEvent db ⟨some "IMPRESSION", some rid, some domain, cartToken, some sid, price⟩ t =
      if db.events.any fun e =>
          e.ruleId == rid && e.eventType == EventType.IMPRESSION && e.sessionId == some sid then
        (TrackResponse.ok false (some "duplicate"), db)
      else
        (TrackResponse.ok true none,
          { db with events := db.events ++
              [⟨shop.id, rid, EventType.IMPRESSION, jsOrNull cartToken, some sid, none, t⟩] }) := by
  obtain ⟨rr, hrr⟩ := Option.isSome_iff_exists.mp hrule
  have hsid' : jsOrNull (some sid) = some sid := by
    simp only [strTruthy] at hsid
    simp [jsOrNull, Bool.not_eq_true' .. ▸ hsid]
  simp only [recordEvent, hdomain, hrid, Option.getD_some, hshop, hrr, hsid, hsid']
  norm_num
  rfl

/-- Evaluation of the tracking action on a well-formed CONVERSION request
that resolves its shop and rule: no de-duplication applies, one row is
appended, and the stored price follows the JavaScript-truthiness guard. -/
theorem recordEvent_conversion_core (db : TrackDb) (domain rid : String)
    (cartToken sessionId : Option String) (price : Option ℚ) (t : Nat) (shop : ShopRow)
    (hdomain : strTruthy (some domain) = true) (hrid : strTruthy (some rid) = true)
    (hshop : db.shops.find? (fun s => s.shopifyDomain == domain) = some shop)
    (hrule : (db.rules.find? fun r => r.id == rid && r.shopId == shop.id).isSome = true) :
    recordEvent db ⟨some "CONVERSION", some rid, some domain, cartToken, sessionId, price⟩ t =
      (TrackResponse.ok true none,
        { db with events := db.events ++
            [⟨shop.id, rid, EventType.CONVERSION, jsOrNull cartToken, jsOrNull sessionId,
              if qTruthy price then price else none, t⟩] }) := by
  obtain ⟨rr, hrr⟩ := Option.isSome_iff_exists.mp hrule
  have g1 : strTruthy (some "CONVERSION") = true := by decide
  have g2 : ("CONVERSION" : String) ≠ "IMPRESSION" := by decide
  simp only [recordEvent, hdomain, hrid, Option.getD_some, hshop, hrr]
  norm_num [g1, g2]

/-- C3: with a valid shop/rule pair and a present session id, a first
IMPRESSION call is tracked and appends exactly one event row; an identical
repeat call (at any later time — the duplicate lookup has no time window)
returns `{success: true, tracked: false, reason: "duplicate"}` and leaves the
store unchanged; and a further call with a different session id for the same
rule is tracked again and appends a row: first-write-wins de-duplication per
`(ruleId, sessionId)`. -/
theorem recordEvent_impression_dedup_spec
    (db : TrackDb) (domain rid sid sid2 : String) (cartToken : Option String)
    (price : Option ℚ) (t1 t2 t3 : Nat) (shop : ShopRow)
    (hdomain : strTruthy (some domain) = true) (hrid : strTruthy (some rid) = true)
    (hsid : strTruthy (some sid) = true) (hsid2 : strTruthy (some sid2) = true)
    (hne : sid2 ≠ sid)
    (hshop : db.shops.find? (fun s => s.shopifyDomain == domain) = some shop)
    (hrule : (db.rules.find? fun r => r.id == rid && r.shopId == shop.id).isSome = true)
    (hnodup : (db.events.any fun e =>
        e.ruleId == rid && e.eventType == EventType.IMPRESSION &&
          e.sessionId == some sid) = false)
    (hnodup2 : (db.events.any fun e =>
        e.ruleId == rid && e.eventType == EventType.IMPRESSION &&
          e.sessionId == some sid2) = false) :
    recordEvent db ⟨some "IMPRESSION", some rid, some domain, cartToken, some sid, price⟩ t1 =
      (TrackResponse.ok true none,
        { db with events := db.events ++
            [⟨shop.id, rid, EventType.IMPRESSION, jsOrNull cartToken, some sid, none, t1⟩] }) ∧
    recordEvent
        { db with events := db.events ++
            [⟨shop.id, rid, EventType.IMPRESSION, jsOrNull cartToken, some sid, none, t1⟩] }
        ⟨some "IMPRESSION", some rid, some domain, cartToken, some sid, price⟩ t2 =
      (TrackResponse.ok false (some "duplicate"),
        { db with events := db.events ++
            [⟨shop.id, rid, EventType.IMPRESSION, jsOrNull cartToken, some sid, none, t1⟩] }) ∧
    recordEvent
        { db with events := db.events ++
            [⟨shop.id, rid, EventType.IMPRESSION, jsOrNull cartToken, some sid, none, t1⟩] }
        ⟨some "IMPRESSION", some rid, some domain, cartToken, some sid2, price⟩ t3 =
      (TrackResponse.ok true none,
        { db with events := db.events ++
            [⟨shop.id, rid, EventType.IMPRESSION, jsOrNull cartToken, some sid, none, t1⟩,
             ⟨shop.id, rid, EventType.IMPRESSION, jsOrNull cartToken, some sid2, none, t3⟩] }) := by
  have hb : (sid == sid2) = false := by
    refine beq_eq_false_iff_ne.mpr fun hx => hne hx.symm
  refine ⟨?_, ?_, ?_⟩
  · rw [recordEvent_impression_core db domain rid sid cartToken price t1 shop
      hdomain hrid hsid hshop hrule]
    simp [hnodup]
  · rw [recordEvent_impression_core
      { db with events := db.events ++
          [⟨shop.id, rid, EventType.IMPRESSION, jsOrNull cartToken, some sid, none, t1⟩] }
      domain rid sid cartToken price t2 shop hdomain hrid hsid hshop hrule]
    simp [List.any_append, hnodup]
  · rw [recordEvent_impression_core
      { db with events := db.events ++
          [⟨shop.id, rid, EventType.IMPRESSION, jsOrNull cartToken, some sid, none, t1⟩] }
      domain rid sid2 cartToken price t3 shop hdomain hrid hsid2 hshop hrule]
    simp [List.any_append, hnodup2, hb]

/-- Witness for C3 at a concrete store: one shop, one rule, no prior events;
session `"sess-a"` twice, then session `"sess-b"`. -/
theorem recordEvent_impression_dedup_spec_witness :
    recordEvent ⟨[⟨"s1", "demo.myshopify.com"⟩], [⟨"r1", "s1"⟩], []⟩
        ⟨some "IMPRESSION", some "r1", some "demo.myshopify.com", none, some "sess-a", none⟩ 0 =
      (TrackResponse.ok true none,
        ⟨[⟨"s1", "demo.myshopify.com"⟩], [⟨"r1", "s1"⟩],
          [⟨"s1", "r1", EventType.IMPRESSION, jsOrNull none, some "sess-a", none, 0⟩]⟩) ∧
    recordEvent
        ⟨[⟨"s1", "demo.myshopify.com"⟩], [⟨"r1", "s1"⟩],
          [⟨"s1", "r1", EventType.IMPRESSION, jsOrNull none, some "sess-a", none, 0⟩]⟩
        ⟨some "IMPRESSION", some "r1", some "demo.myshopify.com", none, some "sess-a", none⟩ 1 =
      (TrackResponse.ok false (some "duplicate"),
        ⟨[⟨"s1", "demo.myshopify.com"⟩], [⟨"r1", "s1"⟩],
          [⟨"s1", "r1", EventType.IMPRESSION, jsOrNull none, some "sess-a", none, 0⟩]⟩) ∧
    recordEvent
        ⟨[⟨"s1", "demo.myshopify.com"⟩], [⟨"r1", "s1"⟩],
          [⟨"s1", "r1", EventType.IMPRESSION, jsOrNull none, some "sess-a", none, 0⟩]⟩
        ⟨some "IMPRESSION", some "r1", some "demo.myshopify.com", none, some "sess-b", none⟩ 2 =
      (TrackResponse.ok true none,
        ⟨[⟨"s1", "demo.myshopify.com"⟩], [⟨"r1", "s1"⟩],
          [⟨"s1", "r1", EventType.IMPRESSION, jsOrNull none, some "sess-a", none, 0⟩,
           ⟨"s1", "r1", EventType.IMPRESSION, jsOrNull none, some "sess-b", none, 2⟩]⟩) :=
  recordEvent_impression_dedup_spec
    ⟨[⟨"s1", "demo.myshopify.com"⟩], [⟨"r1", "s1"⟩], []⟩
    "demo.myshopify.com" "r1" "sess-a" "sess-b" none none 0 1 2 ⟨"s1", "demo.myshopify.com"⟩
    (by decide) (by decide) (by decide) (by decide) (by decide)
    (by decide) (by decide) (by decide) (by decide)

/-- C4: for every event sequence, `computeSummary` counts impressions and
conversions, computes the conversion rate as `conversions / impressions *
100` guarded to exactly `0` when there are no impressions (no division by
zero), and sums conversion revenue with null prices read as `0`; in
particular 10 impressions with 2 conversions give rate `20`, and 0
impressions with 1 conversion give rate `0`. -/
theorem computeSummary_spec (events : List EventRow) :
    (computeSummary events).totalImpressions =
      events.countP (fun e => e.eventType == EventType.IMPRESSION) ∧
    (computeSummary events).totalConversions =
      events.countP (fun e => e.eventType == EventType.CONVERSION) ∧
    (computeSummary events).conversionRate =
      (if 0 < events.countP (fun e => e.eventType == EventType.IMPRESSION) then
        ((events.countP (fun e => e.eventType == EventType.CONVERSION) : ℚ) /
          (events.countP (fun e => e.eventType == EventType.IMPRESSION) : ℚ)) * 100
      else 0) ∧
    (computeSummary events).totalRevenue =
      ((events.filter fun e => e.eventType == EventType.CONVERSION).map
        fun e => e.productPrice.getD 0).sum ∧
    (computeSummary
        (List.replicate 10 ⟨"s", "r", EventType.IMPRESSION, none, some "x", none, 0⟩ ++
          List.replicate 2 ⟨"s", "r", EventType.CONVERSION, none, none, some 10, 0⟩)).conversionRate
      = 20 ∧
    (computeSummary [⟨"s", "r", EventType.CONVERSION, none, none, some 10, 0⟩]).conversionRate
      = 0 := by
  refine ⟨?_, ?_, ?_, ?_, ?_, ?_⟩
  · simp [computeSummary, List.countP_eq_length_filter]
  · simp [computeSummary, List.countP_eq_length_filter]
  · simp [computeSummary, List.countP_eq_length_filter]
  · simp [computeSummary, foldl_price_sum]
  · simp [computeSummary, List.replicate, List.filter_cons]
    norm_num
  · simp [computeSummary, List.filter_cons]

/-- The per-rule offer construction coincides with the spec's description of
an offer built from the cached snapshot with fallbacks. -/
theorem offerOfRule_eq_specOffer (rule : Rule) : offerOfRule rule = specOffer rule := by
  cases hd : rule.upsellProductData with
  | none => simp [offerOfRule, specOffer, hd, jsOrString, jsOrNull]
  | some snap =>
    obtain ⟨v, t, i, p, c⟩ := snap
    cases v <;> cases t <;> cases i <;> cases p <;> cases c <;>
      simp [offerOfRule, specOffer, hd, jsOrString, jsOrNull]

/-- C5: `formatOffers` keeps exactly the first `maxOffers = 3` matched rules
in match order and maps each to the spec's offer (snapshot fields with
`variantId`/`title`/`price` fallbacks, nullable `image`/`compareAtPrice`,
`available` always `true`); its length is `min 3` of the input length, and
five matching rules yield exactly the first three, the other two dropped. -/
theorem formatOffers_spec (matchedRules : List Rule) (r1 r2 r3 r4 r5 : Rule) :
    formatOffers matchedRules = (matchedRules.take 3).map specOffer ∧
    (formatOffers matchedRules).length = min 3 matchedRules.length ∧
    formatOffers [r1, r2, r3, r4, r5] = [specOffer r1, specOffer r2, specOffer r3] := by
  have hfn : offerOfRule = specOffer := funext offerOfRule_eq_specOffer
  refine ⟨?_, ?_, ?_⟩
  · show (matchedRules.take maxOffers).map offerOfRule = _
    rw [hfn, maxOffers]
  · simp [formatOffers, maxOffers]
  · show ([r1, r2, r3, r4, r5].take maxOffers).map offerOfRule = _
    rw [hfn]
    rfl

/-- Counterexample to C6: the `BILLING_PLANS` table defines only the FREE and
PRO tiers, so for the schema's third plan value STARTER the gate reads
`maxRules` of `undefined` and faults (`none`) instead of returning
`allowed: true` as the claim states for `count = 1`. -/
theorem canPerformAction_starter_counterexample :
    canPerformAction Plan.STARTER "createRule" (some 1) = none ∧
    canPerformAction Plan.STARTER "createRule" (some 1) ≠
      some { allowed := true, reason := none } := by
  exact ⟨rfl, by decide⟩

/-- C6 (amended): for the plans that `BILLING_PLANS` defines (FREE with
`maxRules = 1`, PRO with the large sentinel 999), `canPerformAction` with a
supplied count disallows `createRule` iff `count ≥ maxRules`, and the
disallow reason embeds the plan's limit and name; FREE at count 1 is
disallowed with a reason naming "Free" and "1", PRO at count 1 is allowed.
STARTER has no `BILLING_PLANS` entry, so no gate decision exists for it. -/
theorem canPerformAction_spec (p : Plan) (cfg : PlanConfig)
    (hcfg : BILLING_PLANS p = some cfg) (count : Nat) :
    canPerformAction p "createRule" (some count) =
      (if cfg.maxRules ≤ count then
        some { allowed := false, reason := some (limitReason cfg) }
      else some { allowed := true, reason := none }) ∧
    (∃ s1 s2 s3, limitReason cfg = s1 ++ toString cfg.maxRules ++ s2 ++ cfg.name ++ s3) ∧
    canPerformAction Plan.FREE "createRule" (some 1) =
      some { allowed := false,
             reason := some (reasonHead ++ "1" ++ reasonMid ++ "Free" ++ reasonTail) } ∧
    canPerformAction Plan.PRO "createRule" (some 1) =
      some { allowed := true, reason := none } := by
  refine ⟨?_, ⟨reasonHead, reasonMid, reasonTail, rfl⟩, by decide, by decide⟩
  have hact : (("createRule" : String) == "createRule") = true := by decide
  simp [canPerformAction, hact, hcfg]

/-- Witness for C6's amended theorem at the FREE configuration and count 1. -/
theorem canPerformAction_spec_witness :
    canPerformAction Plan.FREE "createRule" (some 1) =
      (if (1 : Nat) ≤ 1 then
        some { allowed := false,
               reason := some (limitReason ⟨"Free", 0, 1⟩) }
      else some { allowed := true, reason := none }) ∧
    (∃ s1 s2 s3, limitReason ⟨"Free", 0, 1⟩ =
      s1 ++ toString (1 : Nat) ++ s2 ++ "Free" ++ s3) ∧
    canPerformAction Plan.FREE "createRule" (some 1) =
      some { allowed := false,
             reason := some (reasonHead ++ "1" ++ reasonMid ++ "Free" ++ reasonTail) } ∧
    canPerformAction Plan.PRO "createRule" (some 1) =
      some { allowed := true, reason := none } :=
  canPerformAction_spec Plan.FREE ⟨"Free", 0, 1⟩ rfl 1

/-- Counterexample to C7: two shop states identical except for the stored
`currentPlan` column (both with one enabled rule) receive different
rule-creation gate decisions in both the loader's `canCreateRule` check and
the action's plan-limit check: the gate does depend on the stored field. -/
theorem planGate_stored_plan_counterexample :
    canCreateRule ⟨Plan.FREE, ["rule-1"]⟩ = false ∧
    canCreateRule ⟨Plan.PRO, ["rule-1"]⟩ = true ∧
    createRulePlanBlocked ⟨Plan.FREE, ["rule-1"]⟩ true = true ∧
    createRulePlanBlocked ⟨Plan.PRO, ["rule-1"]⟩ true = false := by decide

/-- A line item's price test of `hasActivePaidSubscription`, as an
existential. -/
theorem amount_pos_match_iff (li : SubscriptionLineItem) :
    ((match li.amount with | some a => decide (0 < a) | none => false) = true) ↔
      ∃ a, li.amount = some a ∧ 0 < a := by
  cases h : li.amount <;> simp [h]

/-- `hasActivePaidSubscription` holds exactly when the subscription is ACTIVE
with some positively-priced line item. -/
theorem hasActive_iff (sub : Subscription) :
    hasActivePaidSubscription (some sub) = true ↔
      (sub.status = "ACTIVE" ∧ ∃ li ∈ sub.lineItems, ∃ a, li.amount = some a ∧ 0 < a) := by
  simp [hasActivePaidSubscription, List.any_eq_true, amount_pos_match_iff]

/-- C7 (amended): `getCurrentPlan` derives PRO from a subscription exactly
when its status is ACTIVE and some line item carries a positive recurring
price (else FREE, including for a null subscription) — but the rule-creation
gate of `app.rules.new.tsx` does not consult it: the gate outcome is a
function of the shop record's stored `currentPlan` column and the enabled
rule count alone. -/
theorem planDerivation_and_gate_spec :
    (∀ sub : Subscription,
      (getCurrentPlan (some sub) = Plan.PRO ↔
        (sub.status = "ACTIVE" ∧ ∃ li ∈ sub.lineItems, ∃ a, li.amount = some a ∧ 0 < a))) ∧
    getCurrentPlan none = Plan.FREE ∧
    (∀ s : ShopRec,
      (canCreateRule s = true ↔
        (s.currentPlan ≠ Plan.FREE ∨ s.enabledRules.length < 1))) ∧
    (∀ s : ShopRec, ∀ isEnabled : Bool,
      (createRulePlanBlocked s isEnabled = true ↔
        (s.currentPlan = Plan.FREE ∧ 1 ≤ s.enabledRules.length ∧ isEnabled = true))) := by
  refine ⟨?_, rfl, ?_, ?_⟩
  · intro sub
    have hiff := hasActive_iff sub
    cases hb : hasActivePaidSubscription (some sub)
    · rw [hb] at hiff
      simp at hiff
      simp [getCurrentPlan, hb]
      exact hiff
    · rw [hb] at hiff
      simp at hiff
      simp [getCurrentPlan, hb]
      exact hiff
  · intro s
    simp [canCreateRule]
  · intro s isEnabled
    simp [createRulePlanBlocked, and_assoc]

/-- Counterexample to C8: a CONVERSION request supplying the price `0` is
accepted and tracked, but the appended row stores `null` (the JavaScript
guard `productPrice ? parseFloat(productPrice) : null` treats `0` as falsy),
not the supplied decimal. -/
theorem recordEvent_zero_price_counterexample :
    (recordEvent ⟨[⟨"s1", "demo.myshopify.com"⟩], [⟨"r1", "s1"⟩], []⟩
        ⟨some "CONVERSION", some "r1", some "demo.myshopify.com", none, none, some 0⟩ 7).1 =
      TrackResponse.ok true none ∧
    ((recordEvent ⟨[⟨"s1", "demo.myshopify.com"⟩], [⟨"r1", "s1"⟩], []⟩
        ⟨some "CONVERSION", some "r1", some "demo.myshopify.com", none, none, some 0⟩
        7).2.events.map fun e => e.productPrice) = [none] ∧
    ((recordEvent ⟨[⟨"s1", "demo.myshopify.com"⟩], [⟨"r1", "s1"⟩], []⟩
        ⟨some "CONVERSION", some "r1", some "demo.myshopify.com", none, none, some 0⟩
        7).2.events.map fun e => e.productPrice) ≠ [some 0] := by
  refine ⟨by decide, by decide, by decide⟩

/-- C8 (amended): an accepted CONVERSION stores the supplied price when it is
truthy (present and nonzero) and `null` otherwise; an accepted IMPRESSION
stores `null` even when a price is supplied; and conversions are never
de-duplicated — a second identical CONVERSION call is tracked again and
appends a second row. -/
theorem recordEvent_conversion_price_spec
    (db : TrackDb) (domain rid : String) (cartToken sessionId : Option String)
    (price : Option ℚ) (t1 t2 t3 : Nat) (shop : ShopRow)
    (hdomain : strTruthy (some domain) = true) (hrid : strTruthy (some rid) = true)
    (hshop : db.shops.find? (fun s => s.shopifyDomain == domain) = some shop)
    (hrule : (db.rules.find? fun r => r.id == rid && r.shopId == shop.id).isSome = true) :
    recordEvent db ⟨some "CONVERSION", some rid, some domain, cartToken, sessionId, price⟩ t1 =
      (TrackResponse.ok true none,
        { db with events := db.events ++
            [⟨shop.id, rid, EventType.CONVERSION, jsOrNull cartToken, jsOrNull sessionId,
              if qTruthy price then price else none, t1⟩] }) ∧
    recordEvent
        { db with events := db.events ++
            [⟨shop.id, rid, EventType.CONVERSION, jsOrNull cartToken, jsOrNull sessionId,
              if qTruthy price then price else none, t1⟩] }
        ⟨some "CONVERSION", some rid, some domain, cartToken, sessionId, price⟩ t2 =
      (TrackResponse.ok true none,
        { db with events := db.events ++
            [⟨shop.id, rid, EventType.CONVERSION, jsOrNull cartToken, jsOrNull sessionId,
              if qTruthy price then price else none, t1⟩,
             ⟨shop.id, rid, EventType.CONVERSION, jsOrNull cartToken, jsOrNull sessionId,
              if qTruthy price then price else none, t2⟩] }) ∧
    recordEvent db ⟨some "IMPRESSION", some rid, some domain, cartToken, none, price⟩ t3 =
      (TrackResponse.ok true none,
        { db with events := db.events ++
            [⟨shop.id, rid, EventType.IMPRESSION, jsOrNull cartToken, none, none, t3⟩] }) := by
  obtain ⟨rr, hrr⟩ := Option.isSome_iff_exists.mp hrule
  refine ⟨recordEvent_conversion_core db domain rid cartToken sessionId price t1 shop
      hdomain hrid hshop hrule, ?_, ?_⟩
  · rw [recordEvent_conversion_core
      { db with events := db.events ++
          [⟨shop.id, rid, EventType.CONVERSION, jsOrNull cartToken, jsOrNull sessionId,
            if qTruthy price then price else none, t1⟩] }
      domain rid cartToken sessionId price t2 shop hdomain hrid hshop hrule]
    simp
  · have g1 : strTruthy (some "IMPRESSION") = true := by decide
    have g2 : strTruthy (none : Option String) = false := rfl
    have g3 : ("IMPRESSION" : String) ≠ "CONVERSION" := by decide
    simp only [recordEvent, hdomain, hrid, Option.getD_some, hshop, hrr, g1, g2]
    norm_num [jsOrNull, g3]

/-- Witness for C8's amended theorem at a concrete store with the supplied
price 5/2. -/
theorem recordEvent_conversion_price_spec_witness :
    recordEvent ⟨[⟨"s1", "demo.myshopify.com"⟩], [⟨"r1", "s1"⟩], []⟩
        ⟨some "CONVERSION", some "r1", some "demo.myshopify.com", none, some "sess-a",
          some (5 / 2)⟩ 0 =
      (TrackResponse.ok true none,
        ⟨[⟨"s1", "demo.myshopify.com"⟩], [⟨"r1", "s1"⟩],
          [⟨"s1", "r1", EventType.CONVERSION, jsOrNull none, jsOrNull (some "sess-a"),
            if qTruthy (some (5 / 2)) then some ((5 : ℚ) / 2) else none, 0⟩]⟩) ∧
    recordEvent
        ⟨[⟨"s1", "demo.myshopify.com"⟩], [⟨"r1", "s1"⟩],
          [⟨"s1", "r1", EventType.CONVERSION, jsOrNull none, jsOrNull (some "sess-a"),
            if qTruthy (some (5 / 2)) then some ((5 : ℚ) / 2) else none, 0⟩]⟩
        ⟨some "CONVERSION", some "r1", some "demo.myshopify.com", none, some "sess-a",
          some (5 / 2)⟩ 1 =
      (TrackResponse.ok true none,
        ⟨[⟨"s1", "demo.myshopify.com"⟩], [⟨"r1", "s1"⟩],
          [⟨"s1", "r1", EventType.CONVERSION, jsOrNull none, jsOrNull (some "sess-a"),
            if qTruthy (some (5 / 2)) then some ((5 : ℚ) / 2) else none, 0⟩,
           ⟨"s1", "r1", EventType.CONVERSION, jsOrNull none, jsOrNull (some "sess-a"),
            if qTruthy (some (5 / 2)) then some ((5 : ℚ) / 2) else none, 1⟩]⟩) ∧
    recordEvent ⟨[⟨"s1", "demo.myshopify.com"⟩], [⟨"r1", "s1"⟩], []⟩
        ⟨some "IMPRESSION", some "r1", some "demo.myshopify.com", none, none, some (5 / 2)⟩ 2 =
      (TrackResponse.ok true none,
        ⟨[⟨"s1", "demo.myshopify.com"⟩], [⟨"r1", "s1"⟩],
          [⟨"s1", "r1", EventType.IMPRESSION, jsOrNull none, none, none, 2⟩]⟩) :=
  recordEvent_conversion_price_spec
    ⟨[⟨"s1", "demo.myshopify.com"⟩], [⟨"r1", "s1"⟩], []⟩
    "demo.myshopify.com" "r1" none (some "sess-a") (some (5 / 2)) 0 1 2
    ⟨"s1", "demo.myshopify.com"⟩ (by decide) (by decide) (by decide) (by decide)

/-- C9: with a shop parameter present, a `products` parameter that is present
but empty, or parses to no ids, yields `{offers: []}` with HTTP 200; an
unknown shop yields `{offers: []}` with HTTP 200; and an internal error in
the database work yields `{offers: []}` with HTTP 500 — never an error-shaped
body in these cases. -/
theorem upsells_graceful_degradation_spec
    (shop : Option String) (p : String) (dbFetch : Except Unit (Option (List Rule)))
    (oracle : String → List String) (hshop : strTruthy shop = true) :
    upsellsLoader shop (some "") dbFetch oracle = ⟨200, UpsellsBody.offers []⟩ ∧
    (parseCartProductIds p = [] →
      upsellsLoader shop (some p) dbFetch oracle = ⟨200, UpsellsBody.offers []⟩) ∧
    (dbFetch = .ok none →
      upsellsLoader shop (some p) dbFetch oracle = ⟨200, UpsellsBody.offers []⟩) ∧
    (dbFetch = .error () → strTruthy (some p) = true → parseCartProductIds p ≠ [] →
      upsellsLoader shop (some p) dbFetch oracle = ⟨500, UpsellsBody.offers []⟩) := by
  refine ⟨?_, ?_, ?_, ?_⟩
  · have h0 : strTruthy (some "") = false := rfl
    simp [upsellsLoader, hshop, h0]
  · intro hp
    by_cases ht : strTruthy (some p) = true
    · simp [upsellsLoader, hshop, ht, hp]
    · simp only [Bool.not_eq_true] at ht
      simp [upsellsLoader, hshop, ht]
  · intro hdb
    by_cases ht : strTruthy (some p) = true
    · by_cases hp : parseCartProductIds p = []
      · simp [upsellsLoader, hshop, ht, hp]
      · simp [upsellsLoader, hshop, ht, hp, hdb]
    · simp only [Bool.not_eq_true] at ht
      simp [upsellsLoader, hshop, ht]
  · intro hdb ht hp
    simp [upsellsLoader, hshop, ht, hp, hdb]

/-- Witness for C9: blank-only ids with an unknown shop give 200 and empty
offers; a nonempty cart with a throwing database gives 500 and empty
offers. -/
theorem upsells_graceful_degradation_spec_witness :
    upsellsLoader (some "demo.myshopify.com") (some " , ") (.ok none) (fun _ => []) =
      ⟨200, UpsellsBody.offers []⟩ ∧
    upsellsLoader (some "demo.myshopify.com") (some "123") (.error ()) (fun _ => []) =
      ⟨500, UpsellsBody.offers []⟩ :=
  ⟨(upsells_graceful_degradation_spec (some "demo.myshopify.com") " , " (.ok none)
      (fun _ => []) (by decide)).2.1 (by decide),
   (upsells_graceful_degradation_spec (some "demo.myshopify.com") "123" (.error ())
      (fun _ => []) (by decide)).2.2.2 rfl (by decide) (by decide)⟩

/-- C10: a `GET /upsells` or `GET /shipping` request without a (truthy) shop
parameter is the one storefront request shape answered 400, with the error
body `{error: "Missing shop parameter"}`; every request with a shop
parameter present is answered 200 or 500, never a 4xx. -/
theorem missing_shop_param_spec (productsParam : Option String)
    (dbFetch : Except Unit (Option (List Rule))) (oracle : String → List String)
    (shipFetch : Except Unit (Option ShippingSettingsRow)) (shopParam : Option String)
    (hshop : strTruthy shopParam = true) :
    upsellsLoader none productsParam dbFetch oracle =
      ⟨400, UpsellsBody.error "Missing shop parameter"⟩ ∧
    shippingLoader none shipFetch =
      ⟨400, ShippingBody.error "Missing shop parameter"⟩ ∧
    ((upsellsLoader shopParam productsParam dbFetch oracle).status = 200 ∨
      (upsellsLoader shopParam productsParam dbFetch oracle).status = 500) ∧
    ((shippingLoader shopParam shipFetch).status = 200 ∨
      (shippingLoader shopParam shipFetch).status = 500) := by
  refine ⟨rfl, rfl, ?_, ?_⟩
  · rw [upsellsLoader]
    simp only [hshop]
    by_cases ht : strTruthy productsParam = true
    · simp only [ht]
      by_cases hp : (parseCartProductIds (productsParam.getD "")).length = 0
      · simp [hp]
      · simp only [hp]
        match dbFetch with
        | .error _ => simp
        | .ok none => simp
        | .ok (some rules) => simp
    · simp only [Bool.not_eq_true] at ht
      simp [ht]
  · simp only [shippingLoader, hshop]
    match shipFetch with
    | .error _ => simp
    | .ok none => simp
    | .ok (some s) => simp

/-- Witness for C10 with a concrete present shop parameter. -/
theorem missing_shop_param_spec_witness :
    upsellsLoader none (some "123") (.ok none) (fun _ => []) =
      ⟨400, UpsellsBody.error "Missing shop parameter"⟩ ∧
    shippingLoader none (.ok none) =
      ⟨400, ShippingBody.error "Missing shop parameter"⟩ ∧
    ((upsellsLoader (some "demo.myshopify.com") (some "123") (.ok none)
        (fun _ => [])).status = 200 ∨
      (upsellsLoader (some "demo.myshopify.com") (some "123") (.ok none)
        (fun _ => [])).status = 500) ∧
    ((shippingLoader (some "demo.myshopify.com") (.ok none)).status = 200 ∨
      (shippingLoader (some "demo.myshopify.com") (.ok none)).status = 500) :=
  missing_shop_param_spec (some "123") (.ok none) (fun _ => []) (.ok none)
    (some "demo.myshopify.com") (by decide)

end CartUpsell
